import Mathlib

/-!
# Verification of the climate-assistant agent pipeline (`backend/agents.py`)

Shallow embedding of the LangGraph multi-agent RAG pipeline defined in
`backend/agents.py` (class `ClimateAssistantAgents`) together with the
constants it takes from `backend/src/config.py`.

Modelling conventions:
* The two external capabilities (the Ollama chat model reached through
  `self.llm.invoke`, and the vector search reached through
  `document_processor.search_with_scores`) are opaque ports, represented as
  functions returning `Except Unit _`; `Except.error ()` stands for a raised
  Python exception.  Each LLM call site gets its own port function, taking the
  variable parts of the prompt it is built from (the fixed Portuguese prompt
  text does not vary and is absorbed into the port).
* The LangGraph `StateGraph` built in `_create_graph` is executed as a
  sequential state-transformer over the single shared `AgentState` record,
  following the edges declared there: supervisor → retriever → answerer →
  self_check → (conditional: continue → safety → finalizer → END,
  retry → retriever, end → END).  The conditional function
  `_should_continue_after_self_check` mutates `iteration_count` in place; it
  is modelled as returning the route together with the updated state.
* Python strings are sequences of code points; `s[:n]` is `pyTake`,
  `needle in hay` is `pyIn`, `s.lower()` is `pyLower` (`Char.toLower`, which
  agrees with Python on the ASCII letters that all verdict tokens use).
* Python `float` scores are carried through the pipeline without ever being
  inspected, compared or computed on, so they are represented by `Int`.
-/

namespace ClimateAssistant

/-- Python substring test `needle in hay`, on lists of characters. -/
def hasSubstr (hay needle : List Char) : Bool :=
  match hay with
  | [] => needle.isEmpty
  | _ :: t => needle.isPrefixOf hay || hasSubstr t needle

/-- Python `needle in hay` on strings. -/
def pyIn (needle hay : String) : Bool :=
  hasSubstr hay.data needle.data

/-- Python `s.lower()` (ASCII-faithful, which covers every token compared). -/
def pyLower (s : String) : String :=
  ⟨s.data.map Char.toLower⟩

/-- Python slice `s[:n]`: the first `n` code points of `s`. -/
def pyTake (s : String) (n : Nat) : String :=
  ⟨s.data.take n⟩

/-- `config.SAFETY_DISCLAIMER` (exact text, including the surrounding
newlines and trailing spaces of the triple-quoted literal). -/
def SAFETY_DISCLAIMER : String :=
  "\n⚠️ **AVISO IMPORTANTE**: Este assistente fornece informações baseadas em documentos científicos e oficiais sobre mudanças climáticas. \nAs informações são apenas para fins educacionais e informativos. Para decisões importantes relacionadas a políticas, \nsaúde ou segurança, consulte sempre especialistas qualificados e fontes oficiais atualizadas.\n"

/-- The fixed "insufficient information" draft set by `answerer_agent` when
no documents were retrieved. -/
def INSUFFICIENT_INFO_MSG : String :=
  "Não foi possível encontrar informações relevantes nos documentos disponíveis."

/-- The fixed apology returned by `process_query` on any unhandled failure. -/
def ERROR_RESPONSE : String :=
  "Desculpe, ocorreu um erro ao processar sua consulta. Tente novamente."

/-- `3`, the retry bound hard-coded in `_should_continue_after_self_check`
(`# Max 3 retries`); the spec calls it `MAX_RETRIES`. -/
def MAX_RETRIES : Nat := 3

/-- One retrieved document as stored by `retriever_agent`:
`{"content": …, "metadata": …, "score": …}`.  `metadata` is a string map
accessed with `.get(key, default)`. -/
structure RetrievedDoc where
  content : String
  metadata : List (String × String)
  score : Int
deriving Repr, DecidableEq

/-- One citation dict as built by `answerer_agent`. -/
structure Citation where
  id : Nat
  content : String
  source : String
  url : String
  score : Int
deriving Repr, DecidableEq

/-- The shared `AgentState` `TypedDict`.  Messages carry only their string
content here (the `BaseMessage` wrappers add nothing the pipeline reads). -/
structure AgentState where
  messages : List String
  query : String
  retrieved_docs : List RetrievedDoc
  answer : String
  citations : List Citation
  safety_check_passed : Bool
  self_check_passed : Bool
  final_response : String
  iteration_count : Nat
deriving Repr, DecidableEq

/-- The external ports: each LLM call site of `agents.py`, the vector
search, and the markdown renderer.  `Except.error ()` models a raised
exception at that call. -/
structure Ports where
  /-- `document_processor.search_with_scores(query, k=5)`, already converted
  to the dicts `retriever_agent` builds from it. -/
  retrieve : String → Except Unit (List RetrievedDoc)
  /-- `llm.invoke` on the supervisor prompt (varies only with the query). -/
  supervisorLLM : String → Except Unit String
  /-- `llm.invoke` on the retriever adequacy prompt (query, retrieved docs). -/
  retrieverLLM : String → List RetrievedDoc → Except Unit String
  /-- `llm.invoke` on the answerer prompt (query, assembled context block). -/
  answererLLM : String → String → Except Unit String
  /-- `llm.invoke` on the self-check prompt (query, answer, `len(citations)`). -/
  selfCheckLLM : String → String → Nat → Except Unit String
  /-- `llm.invoke` on the safety prompt (the current answer). -/
  safetyLLM : String → Except Unit String
  /-- `_convert_markdown_to_html` (total: it returns its input on failure). -/
  markdownToHtml : String → String

/-- `supervisor_agent`: asks the LLM to judge topical relevance; if the
judgment contains an out-of-domain phrase it stores the refusal in
`final_response` and returns, otherwise it stores the judgment as the
message list. -/
def supervisor_agent (P : Ports) (st : AgentState) : Except Unit AgentState := do
  let response ← P.supervisorLLM st.query
  if pyIn "não está relacionada" (pyLower response) ||
      pyIn "não posso ajudar" (pyLower response) then
    pure { st with final_response := response }
  else
    pure { st with messages := [response] }

/-- `retriever_agent`: fetches documents and asks the LLM for an (advisory)
adequacy assessment; the whole body is wrapped in `try/except`, and on any
exception `retrieved_docs` is set to the empty list. -/
def retriever_agent (P : Ports) (st : AgentState) : AgentState :=
  match (do
      let docs ← P.retrieve st.query
      let adv ← P.retrieverLLM st.query docs
      pure (docs, adv) : Except Unit (List RetrievedDoc × String)) with
  | .ok (docs, adv) =>
      { st with retrieved_docs := docs, messages := st.messages ++ [adv] }
  | .error _ => { st with retrieved_docs := [] }

/-- The citation dict `answerer_agent` appends for the document at 0-based
index `i`: `{"id": i+1, "content": content[:200] + "...", "source":
metadata.get("source", "Desconhecido"), "url": metadata.get("url", ""),
"score": score}`. -/
def mkCitation (i : Nat) (doc : RetrievedDoc) : Citation :=
  { id := i + 1
  , content := pyTake doc.content 200 ++ "..."
  , source := ((doc.metadata.lookup "source").getD "Desconhecido")
  , url := ((doc.metadata.lookup "url").getD "")
  , score := doc.score }

/-- The context block `answerer_agent` assembles:
`context += f"\n[Fonte {i+1}]: {content}\n"` for each document. -/
def contextBlock (docs : List RetrievedDoc) : String :=
  docs.enum.foldl
    (fun acc p => acc ++ "\n[Fonte " ++ toString (p.1 + 1) ++ "]: " ++ p.2.content ++ "\n")
    ""

/-- `answerer_agent`: with no retrieved documents it short-circuits to the
fixed insufficient-information draft with no citations; otherwise it builds
the context block and the parallel citation list and asks the LLM for the
draft answer. -/
def answerer_agent (P : Ports) (st : AgentState) : Except Unit AgentState :=
  if st.retrieved_docs.isEmpty then
    pure { st with answer := INSUFFICIENT_INFO_MSG, citations := [] }
  else do
    let citations := st.retrieved_docs.enum.map (fun p => mkCitation p.1 p.2)
    let response ← P.answererLLM st.query (contextBlock st.retrieved_docs)
    pure { st with answer := response, citations := citations }

/-- The verdict parse in `self_check_agent`: lowercase the reply, pass on
`"approved"`, fail on `"needs_improvement"` or `"rejected"`, and default to
passing when none of the three tokens occurs. -/
def parseVerdict (text : String) : Bool :=
  let t := pyLower text
  if pyIn "approved" t then true
  else if pyIn "needs_improvement" t || pyIn "rejected" t then false
  else true

/-- `self_check_agent`: asks the LLM for a quality verdict on
(query, answer, number of citations) and records the parsed verdict. -/
def self_check_agent (P : Ports) (st : AgentState) : Except Unit AgentState := do
  let response ← P.selfCheckLLM st.query st.answer st.citations.length
  pure { st with self_check_passed := parseVerdict response
               , messages := st.messages ++ [response] }

/-- `safety_agent`: asks the LLM to annotate the answer with disclaimers,
then appends the fixed `SAFETY_DISCLAIMER`, marks the safety check passed
and stores the combined text as `final_response`. -/
def safety_agent (P : Ports) (st : AgentState) : Except Unit AgentState := do
  let response ← P.safetyLLM st.answer
  pure { st with safety_check_passed := true
               , final_response := response ++ "\n\n" ++ SAFETY_DISCLAIMER }

/-- One line of the "Fontes consultadas" block built by `finalizer_agent`:
`f"- [{id}] {source}"`, plus ` ({url})` when the url is non-empty, plus a
newline. -/
def citationLine (c : Citation) : String :=
  "- [" ++ toString c.id ++ "] " ++ c.source ++
    (if c.url ≠ "" then " (" ++ c.url ++ ")" else "") ++ "\n"

/-- `finalizer_agent`: when there are citations, appends the formatted
sources block to `final_response`; otherwise leaves the state unchanged. -/
def finalizer_agent (st : AgentState) : AgentState :=
  if st.citations.isEmpty then st
  else
    let block := st.citations.foldl (fun acc c => acc ++ citationLine c)
      "\n\n**Fontes consultadas:**\n"
    { st with final_response := st.final_response ++ block }

/-- `_should_continue_after_self_check`: routes `"continue"` when the check
passed, `"retry"` (incrementing `iteration_count` in the shared state) while
`iteration_count < 3`, and `"end"` once the bound is reached. -/
def shouldContinueAfterSelfCheck (st : AgentState) : String × AgentState :=
  if st.self_check_passed then ("continue", st)
  else if st.iteration_count < 3 then
    ("retry", { st with iteration_count := st.iteration_count + 1 })
  else ("end", st)

/-- The `"continue"` edge of the conditional: `safety` followed by the
unconditional `safety → finalizer` edge of the graph. -/
def afterGateContinue (P : Ports) (st : AgentState) : Except Unit AgentState := do
  let st' ← safety_agent P st
  pure (finalizer_agent st')

/-- The `retriever → answerer → self_check → conditional` sub-cycle of the
graph, with fuel bounding the number of gate evaluations (the returned `Nat`
counts them).  Fuel `MAX_RETRIES + 1` is exact for every run entered with
`iteration_count = 0`, since the gate stops retrying at `iteration_count =
3`; the fuel-0 branch is unreachable from `process_query`'s initial state. -/
def runFromRetriever (P : Ports) : Nat → AgentState → Except Unit (AgentState × Nat)
  | 0, st => pure (st, 0)
  | fuel + 1, st => do
      let st1 := retriever_agent P st
      let st2 ← answerer_agent P st1
      let st3 ← self_check_agent P st2
      let (route, st4) := shouldContinueAfterSelfCheck st3
      if route = "continue" then do
        let st5 ← afterGateContinue P st4
        pure (st5, 1)
      else if route = "retry" then do
        let (fin, n) ← runFromRetriever P fuel st4
        pure (fin, n + 1)
      else
        pure (st4, 1)

/-- `self.graph.invoke`: the full graph run from the entry point
`supervisor`, also reporting how many gate evaluations took place. -/
def runGraph (P : Ports) (st0 : AgentState) : Except Unit (AgentState × Nat) := do
  let st1 ← supervisor_agent P st0
  runFromRetriever P (MAX_RETRIES + 1) st1

/-- The dict `process_query` builds for the caller.  The failure dict of the
source has no `response_html` key, hence the `Option`. -/
structure QueryResult where
  response : String
  response_html : Option String
  citations : List Citation
  retrieved_docs_count : Nat
  success : Bool
deriving Repr, DecidableEq

/-- The `initial_state` dict of `process_query`. -/
def initialState (query : String) : AgentState :=
  { messages := []
  , query := query
  , retrieved_docs := []
  , answer := ""
  , citations := []
  , safety_check_passed := false
  , self_check_passed := false
  , final_response := ""
  , iteration_count := 0 }

/-- `process_query`: runs the graph on a fresh state; on success returns the
final response (raw and rendered), citations, retrieved-document count and
`success = True`; on any exception returns the fixed apology with empty
citations and `success = False`. -/
def process_query (P : Ports) (query : String) : QueryResult :=
  match runGraph P (initialState query) with
  | .ok (result, _) =>
      { response := result.final_response
      , response_html := some (P.markdownToHtml result.final_response)
      , citations := result.citations
      , retrieved_docs_count := result.retrieved_docs.length
      , success := true }
  | .error _ =>
      { response := ERROR_RESPONSE
      , response_html := none
      , citations := []
      , retrieved_docs_count := 0
      , success := false }

/-! ## Basic lemmas about the embedding -/

/-- Inversion for a successful `Except` bind. -/
theorem except_bind_ok {α β : Type} (e : Except Unit α) (f : α → Except Unit β) (b : β) :
    (e >>= f) = .ok b ↔ ∃ a, e = .ok a ∧ f a = .ok b := by
  cases e <;> simp [Bind.bind, Except.bind]

/-- `hasSubstr` decides the mathematical infix relation. -/
theorem hasSubstr_iff (hay needle : List Char) :
    hasSubstr hay needle = true ↔ needle <:+: hay := by
  induction hay with
  | nil => simp [hasSubstr, List.isEmpty_iff, List.infix_nil]
  | cons c t ih =>
      simp [hasSubstr, ih, List.infix_cons_iff, List.isPrefixOf_iff_prefix]

/-- Python `needle in hay` agrees with the infix relation on code points. -/
theorem pyIn_iff (needle hay : String) :
    pyIn needle hay = true ↔ needle.data <:+: hay.data := by
  simp [pyIn, hasSubstr_iff]

/-- `retriever_agent` only touches `retrieved_docs` and `messages`. -/
theorem retriever_agent_frame (P : Ports) (st : AgentState) :
    (retriever_agent P st).query = st.query ∧
    (retriever_agent P st).answer = st.answer ∧
    (retriever_agent P st).citations = st.citations ∧
    (retriever_agent P st).safety_check_passed = st.safety_check_passed ∧
    (retriever_agent P st).self_check_passed = st.self_check_passed ∧
    (retriever_agent P st).final_response = st.final_response ∧
    (retriever_agent P st).iteration_count = st.iteration_count := by
  unfold retriever_agent
  split <;> simp

/-- Inversion for `supervisor_agent`. -/
theorem supervisor_agent_ok (P : Ports) (st st' : AgentState)
    (h : supervisor_agent P st = .ok st') :
    ∃ t, P.supervisorLLM st.query = .ok t ∧
      ((pyIn "não está relacionada" (pyLower t) || pyIn "não posso ajudar" (pyLower t)) = true ∧
          st' = { st with final_response := t } ∨
        (pyIn "não está relacionada" (pyLower t) || pyIn "não posso ajudar" (pyLower t)) = false ∧
          st' = { st with messages := [t] }) := by
  unfold supervisor_agent at h
  rw [except_bind_ok] at h
  obtain ⟨t, ht, h⟩ := h
  refine ⟨t, ht, ?_⟩
  by_cases hc : (pyIn "não está relacionada" (pyLower t) || pyIn "não posso ajudar" (pyLower t)) = true
  · left
    refine ⟨hc, ?_⟩
    simp only [hc, if_true, pure, Except.pure, Except.ok.injEq] at h
    exact h.symm
  · right
    refine ⟨by simpa using hc, ?_⟩
    simp only [Bool.not_eq_true] at hc
    simp only [hc, Bool.false_eq_true, if_false, pure, Except.pure, Except.ok.injEq] at h
    exact h.symm

/-- Inversion for `answerer_agent`. -/
theorem answerer_agent_ok (P : Ports) (st st' : AgentState)
    (h : answerer_agent P st = .ok st') :
    (st.retrieved_docs = [] ∧
        st' = { st with answer := INSUFFICIENT_INFO_MSG, citations := [] }) ∨
    (st.retrieved_docs ≠ [] ∧
        ∃ t, P.answererLLM st.query (contextBlock st.retrieved_docs) = .ok t ∧
          st' = { st with answer := t
                        , citations := st.retrieved_docs.enum.map (fun p => mkCitation p.1 p.2) }) := by
  unfold answerer_agent at h
  by_cases he : st.retrieved_docs.isEmpty
  · left
    simp only [he, if_true, pure, Except.pure, Except.ok.injEq] at h
    exact ⟨List.isEmpty_iff.mp he, h.symm⟩
  · right
    refine ⟨fun hnil => he (by simp [hnil]), ?_⟩
    simp only [he, Bool.false_eq_true, if_false] at h
    rw [except_bind_ok] at h
    obtain ⟨t, ht, h⟩ := h
    simp only [pure, Except.pure, Except.ok.injEq] at h
    exact ⟨t, ht, h.symm⟩

/-- Inversion for `self_check_agent`. -/
theorem self_check_agent_ok (P : Ports) (st st' : AgentState)
    (h : self_check_agent P st = .ok st') :
    ∃ t, P.selfCheckLLM st.query st.answer st.citations.length = .ok t ∧
      st' = { st with self_check_passed := parseVerdict t
                    , messages := st.messages ++ [t] } := by
  unfold self_check_agent at h
  rw [except_bind_ok] at h
  obtain ⟨t, ht, h⟩ := h
  simp only [pure, Except.pure, Except.ok.injEq] at h
  exact ⟨t, ht, h.symm⟩

/-- Inversion for `safety_agent`. -/
theorem safety_agent_ok (P : Ports) (st st' : AgentState)
    (h : safety_agent P st = .ok st') :
    ∃ t, P.safetyLLM st.answer = .ok t ∧
      st' = { st with safety_check_passed := true
                    , final_response := t ++ "\n\n" ++ SAFETY_DISCLAIMER } := by
  unfold safety_agent at h
  rw [except_bind_ok] at h
  obtain ⟨t, ht, h⟩ := h
  simp only [pure, Except.pure, Except.ok.injEq] at h
  exact ⟨t, ht, h.symm⟩

/-- `finalizer_agent` only touches `final_response`. -/
theorem finalizer_agent_frame (st : AgentState) :
    (finalizer_agent st).query = st.query ∧
    (finalizer_agent st).messages = st.messages ∧
    (finalizer_agent st).retrieved_docs = st.retrieved_docs ∧
    (finalizer_agent st).answer = st.answer ∧
    (finalizer_agent st).citations = st.citations ∧
    (finalizer_agent st).safety_check_passed = st.safety_check_passed ∧
    (finalizer_agent st).self_check_passed = st.self_check_passed ∧
    (finalizer_agent st).iteration_count = st.iteration_count := by
  unfold finalizer_agent
  split <;> simp

/-- The three-way case split of `_should_continue_after_self_check`. -/
theorem shouldContinue_cases (st : AgentState) :
    (st.self_check_passed = true ∧ shouldContinueAfterSelfCheck st = ("continue", st)) ∨
    (st.self_check_passed = false ∧ st.iteration_count < 3 ∧
      shouldContinueAfterSelfCheck st =
        ("retry", { st with iteration_count := st.iteration_count + 1 })) ∨
    (st.self_check_passed = false ∧ ¬ st.iteration_count < 3 ∧
      shouldContinueAfterSelfCheck st = ("end", st)) := by
  unfold shouldContinueAfterSelfCheck
  by_cases h1 : st.self_check_passed <;> by_cases h2 : st.iteration_count < 3 <;>
    simp [h1, h2]

/-- The citation/ordinal invariant of the pipeline state: the citation ids
are exactly `1..n` where `n` is the number of retrieved documents. -/
def citInv (st : AgentState) : Prop :=
  st.citations.map Citation.id = List.range' 1 st.retrieved_docs.length

/-- The ids of the citations built from the enumerated documents are the
consecutive ordinals starting just above the enumeration base. -/
theorem enumFrom_mkCitation_ids (docs : List RetrievedDoc) :
    ∀ k, ((docs.enumFrom k).map (fun p => (mkCitation p.1 p.2).id)) =
      List.range' (k+1) docs.length := by
  induction docs with
  | nil => intro k; simp
  | cons d ds ih =>
      intro k
      simp only [List.enumFrom_cons, List.map_cons, mkCitation, List.length_cons,
        List.range'_succ]
      exact congrArg (List.cons (k+1)) (ih (k+1))

/-- `answerer_agent` establishes the citation invariant on any input. -/
theorem answerer_establishes_citInv (P : Ports) (st st' : AgentState)
    (h : answerer_agent P st = .ok st') : citInv st' := by
  rcases answerer_agent_ok P st st' h with ⟨hnil, rfl⟩ | ⟨-, t, -, rfl⟩
  · simp [citInv, hnil]
  · simp only [citInv, List.map_map, List.enum_eq_enumFrom]
    exact enumFrom_mkCitation_ids st.retrieved_docs 0

/-- The citation invariant is preserved by the retriever→composer→gate
sub-cycle and its continue branch, hence holds in every state the graph run
delivers. -/
theorem citInv_loop (P : Ports) :
    ∀ fuel st fin n, citInv st →
      runFromRetriever P fuel st = .ok (fin, n) → citInv fin := by
  intro fuel
  induction fuel with
  | zero =>
      intro st fin n hinv h
      simp only [runFromRetriever, pure, Except.pure, Except.ok.injEq, Prod.mk.injEq] at h
      exact h.1 ▸ hinv
  | succ fuel ih =>
      intro st fin n hinv h
      unfold runFromRetriever at h
      rw [except_bind_ok] at h
      obtain ⟨st2, hst2, h⟩ := h
      rw [except_bind_ok] at h
      obtain ⟨st3, hst3, h⟩ := h
      have hinv2 : citInv st2 := answerer_establishes_citInv P _ _ hst2
      have hinv3 : citInv st3 := by
        obtain ⟨t, -, rfl⟩ := self_check_agent_ok P st2 st3 hst3
        simpa [citInv] using hinv2
      rcases shouldContinue_cases st3 with ⟨-, hg⟩ | ⟨-, -, hg⟩ | ⟨-, -, hg⟩ <;>
        rw [hg] at h <;> dsimp only at h
      · rw [if_pos rfl, except_bind_ok] at h
        obtain ⟨st5, hst5, h⟩ := h
        simp only [pure, Except.pure, Except.ok.injEq, Prod.mk.injEq] at h
        unfold afterGateContinue at hst5
        rw [except_bind_ok] at hst5
        obtain ⟨st6, hst6, hfin⟩ := hst5
        simp only [pure, Except.pure, Except.ok.injEq] at hfin
        have hinv6 : citInv st6 := by
          obtain ⟨t, -, rfl⟩ := safety_agent_ok P st3 st6 hst6
          simpa [citInv] using hinv3
        have hfin6 : citInv (finalizer_agent st6) := by
          have hf := finalizer_agent_frame st6
          simp only [citInv, hf.2.2.2.2.1, hf.2.2.1]
          exact hinv6
        rw [← h.1, ← hfin]
        exact hfin6
      · rw [if_neg (by decide), if_pos rfl, except_bind_ok] at h
        obtain ⟨⟨fin', n'⟩, hrec, h⟩ := h
        simp only [pure, Except.pure, Except.ok.injEq, Prod.mk.injEq] at h
        have hinv4 : citInv { st3 with iteration_count := st3.iteration_count + 1 } := by
          simpa [citInv] using hinv3
        exact h.1 ▸ ih _ _ _ hinv4 hrec
      · rw [if_neg (by decide), if_neg (by decide)] at h
        simp only [pure, Except.pure, Except.ok.injEq, Prod.mk.injEq] at h
        exact h.1 ▸ hinv3

/-- Reduction of a successful bind. -/
theorem except_ok_bind {α β : Type} (a : α) (f : α → Except Unit β) :
    (Except.ok a >>= f) = f a := rfl

/-- One unfolding of the sub-cycle at positive fuel. -/
theorem runFromRetriever_succ (P : Ports) (fuel : Nat) (st : AgentState) :
    runFromRetriever P (fuel+1) st = (do
      let st2 ← answerer_agent P (retriever_agent P st)
      let st3 ← self_check_agent P st2
      let (route, st4) := shouldContinueAfterSelfCheck st3
      if route = "continue" then do
        let st5 ← afterGateContinue P st4
        pure (st5, 1)
      else if route = "retry" then do
        let (fin, n) ← runFromRetriever P fuel st4
        pure (fin, n + 1)
      else
        pure (st4, 1)) := rfl

/-- With a generation port that always answers the composer and always
returns a failing verdict, one retriever→composer→gate pass always succeeds,
reaches the gate with `self_check_passed = false`, and leaves the query,
`final_response` and `iteration_count` untouched. -/
theorem pass_reject (P : Ports)
    (hans : ∀ q c, ∃ t, P.answererLLM q c = .ok t)
    (hsc : ∀ q a k, ∃ t, P.selfCheckLLM q a k = .ok t ∧ parseVerdict t = false)
    (st : AgentState) :
    ∃ st2 st3, answerer_agent P (retriever_agent P st) = .ok st2 ∧
      self_check_agent P st2 = .ok st3 ∧
      st3.self_check_passed = false ∧
      st3.final_response = st.final_response ∧
      st3.iteration_count = st.iteration_count ∧
      st3.query = st.query := by
  have hfr1 := retriever_agent_frame P st
  have hans2 : ∃ st2, answerer_agent P (retriever_agent P st) = .ok st2 ∧
      st2.final_response = (retriever_agent P st).final_response ∧
      st2.iteration_count = (retriever_agent P st).iteration_count ∧
      st2.query = (retriever_agent P st).query := by
    unfold answerer_agent
    by_cases he : (retriever_agent P st).retrieved_docs.isEmpty
    · rw [if_pos he]
      exact ⟨_, rfl, rfl, rfl, rfl⟩
    · obtain ⟨t, ht⟩ :=
        hans (retriever_agent P st).query (contextBlock (retriever_agent P st).retrieved_docs)
      rw [if_neg he]
      show ∃ st2, (P.answererLLM (retriever_agent P st).query
          (contextBlock (retriever_agent P st).retrieved_docs) >>= _) = .ok st2 ∧ _
      rw [ht, except_ok_bind]
      exact ⟨_, rfl, rfl, rfl, rfl⟩
  obtain ⟨st2, hst2, hfr2a, hfr2b, hfr2c⟩ := hans2
  obtain ⟨t, ht, hpf⟩ := hsc st2.query st2.answer st2.citations.length
  have hst3 : self_check_agent P st2 =
      .ok { st2 with self_check_passed := parseVerdict t
                   , messages := st2.messages ++ [t] } := by
    unfold self_check_agent
    rw [ht, except_ok_bind]
    rfl
  refine ⟨st2, _, hst2, hst3, ?_, ?_, ?_, ?_⟩
  · simpa using hpf
  · simpa using hfr2a.trans hfr1.2.2.2.2.2.1
  · simpa using hfr2b.trans hfr1.2.2.2.2.2.2
  · simpa using hfr2c.trans hfr1.1

/-- Under an always-rejecting gate, the sub-cycle spends all its fuel: it
performs exactly `fuel` gate evaluations, ends with `iteration_count =
MAX_RETRIES`, and never writes `final_response`. -/
theorem reject_loop (P : Ports)
    (hans : ∀ q c, ∃ t, P.answererLLM q c = .ok t)
    (hsc : ∀ q a k, ∃ t, P.selfCheckLLM q a k = .ok t ∧ parseVerdict t = false) :
    ∀ fuel st, 1 ≤ fuel → st.iteration_count + fuel = MAX_RETRIES + 1 →
      ∃ fin, runFromRetriever P fuel st = .ok (fin, fuel) ∧
        fin.iteration_count = MAX_RETRIES ∧
        fin.final_response = st.final_response ∧
        fin.query = st.query := by
  intro fuel
  induction fuel with
  | zero => intro st h1 _; omega
  | succ fuel ih =>
      intro st _ hcount
      obtain ⟨st2, st3, hst2, hst3, hpass, hfr, hic, hq⟩ := pass_reject P hans hsc st
      rcases Nat.eq_zero_or_pos fuel with hf | hf
      · subst hf
        have hic3 : st3.iteration_count = 3 := by
          rw [hic]; unfold MAX_RETRIES at hcount; omega
        have hg : shouldContinueAfterSelfCheck st3 = ("end", st3) := by
          unfold shouldContinueAfterSelfCheck
          rw [hpass, hic3]
          simp
        refine ⟨st3, ?_, by unfold MAX_RETRIES; omega, hfr, hq⟩
        rw [runFromRetriever_succ]
        simp [hst2, except_ok_bind, hst3, hg, pure, Except.pure]
      · have hlt : st3.iteration_count < 3 := by
          rw [hic]; unfold MAX_RETRIES at hcount; omega
        have hg : shouldContinueAfterSelfCheck st3 =
            ("retry", { st3 with iteration_count := st3.iteration_count + 1 }) := by
          unfold shouldContinueAfterSelfCheck
          rw [hpass, if_neg (by simp), if_pos hlt]
        obtain ⟨fin, hrec, hfic, hffr, hfq⟩ :=
          ih { st3 with iteration_count := st3.iteration_count + 1 } hf (by simp; omega)
        refine ⟨fin, ?_, hfic, by rw [hffr]; exact hfr, by rw [hfq]; exact hq⟩
        rw [runFromRetriever_succ]
        simp [hst2, except_ok_bind, hst3, hg, hrec, pure, Except.pure]

/-- The success branch of `process_query`, as a function of the final graph
state. -/
theorem process_query_ok (P : Ports) (q : String) (fin : AgentState) (n : Nat)
    (h : runGraph P (initialState q) = .ok (fin, n)) :
    process_query P q =
      { response := fin.final_response
      , response_html := some (P.markdownToHtml fin.final_response)
      , citations := fin.citations
      , retrieved_docs_count := fin.retrieved_docs.length
      , success := true } := by
  unfold process_query
  rw [h]

/-- The failure branch of `process_query`. -/
theorem process_query_error (P : Ports) (q : String) (e : Unit)
    (h : runGraph P (initialState q) = .error e) :
    process_query P q =
      { response := ERROR_RESPONSE
      , response_html := none
      , citations := []
      , retrieved_docs_count := 0
      , success := false } := by
  unfold process_query
  rw [h]

/-- An in-domain supervisor judgment replaces the message list and nothing
else. -/
theorem supervisor_in_domain (P : Ports) (st : AgentState) (t : String)
    (hsup : P.supervisorLLM st.query = .ok t)
    (hdom : (pyIn "não está relacionada" (pyLower t) ||
      pyIn "não posso ajudar" (pyLower t)) = false) :
    supervisor_agent P st = .ok { st with messages := [t] } := by
  unfold supervisor_agent
  rw [hsup, except_ok_bind, if_neg (by simp [hdom])]
  rfl

/-- An out-of-domain judgment stores the refusal in `final_response` — but
the graph still proceeds to the retriever (`_create_graph` adds an
unconditional `supervisor → retriever` edge). -/
theorem supervisor_out_of_domain (P : Ports) (st : AgentState) (t : String)
    (hsup : P.supervisorLLM st.query = .ok t)
    (hdom : (pyIn "não está relacionada" (pyLower t) ||
      pyIn "não posso ajudar" (pyLower t)) = true) :
    supervisor_agent P st = .ok { st with final_response := t } := by
  unfold supervisor_agent
  rw [hsup, except_ok_bind, if_pos (by simp [hdom])]
  rfl

/-! ## Stub ports used for concrete runs -/

/-- A one-document corpus entry used by concrete runs. -/
def stubDoc : RetrievedDoc :=
  { content := "CONTENT", metadata := [("source", "S"), ("url", "U")], score := 5 }

/-- Deterministic stub ports whose quality verdict is always `REJECTED`. -/
def rejPorts : Ports :=
  { retrieve := fun _ => .ok [stubDoc]
  , supervisorLLM := fun _ => .ok "A consulta é sobre clima, vou prosseguir."
  , retrieverLLM := fun _ _ => .ok "os documentos são relevantes"
  , answererLLM := fun _ _ => .ok "DRAFT"
  , selfCheckLLM := fun _ _ _ => .ok "REJECTED"
  , safetyLLM := fun a => .ok ("SAFE:" ++ a)
  , markdownToHtml := fun s => s }

/-- Stub ports whose supervisor judgment contains the out-of-domain phrase
and whose gate approves on the first try. -/
def oodPorts : Ports :=
  { retrieve := fun _ => .ok [stubDoc]
  , supervisorLLM := fun _ =>
      .ok "Desculpe, sua consulta não está relacionada a questões climáticas."
  , retrieverLLM := fun _ _ => .ok "os documentos são relevantes"
  , answererLLM := fun _ _ => .ok "DRAFT"
  , selfCheckLLM := fun _ _ _ => .ok "APPROVED"
  , safetyLLM := fun a => .ok ("SAFE:" ++ a)
  , markdownToHtml := fun s => s }

/-- Stub ports whose retrieval returns no documents and whose gate approves
on the first try. -/
def emptyPorts : Ports :=
  { retrieve := fun _ => .ok []
  , supervisorLLM := fun _ => .ok "A consulta é sobre clima, vou prosseguir."
  , retrieverLLM := fun _ _ => .ok "não há documentos"
  , answererLLM := fun _ _ => .ok "DRAFT"
  , selfCheckLLM := fun _ _ _ => .ok "APPROVED"
  , safetyLLM := fun a => .ok ("SAFE:" ++ a)
  , markdownToHtml := fun s => s }

/-- Stub ports whose supervisor call raises. -/
def failPorts : Ports :=
  { retrieve := fun _ => .ok [stubDoc]
  , supervisorLLM := fun _ => .error ()
  , retrieverLLM := fun _ _ => .ok "os documentos são relevantes"
  , answererLLM := fun _ _ => .ok "DRAFT"
  , selfCheckLLM := fun _ _ _ => .ok "APPROVED"
  , safetyLLM := fun a => .ok ("SAFE:" ++ a)
  , markdownToHtml := fun s => s }

/-! ## Claim theorems -/

/-- C4: the Quality-Gate parse is a case-insensitive substring match against
the tokens APPROVED, NEEDS_IMPROVEMENT and REJECTED (`approved` wins when
several occur); whenever none of the three tokens occurs the gate resolves
to approved (fail-open), and a passed gate routes the run to the safety
stage (`"continue"`). -/
theorem C4_gate_parse_policy (s : String) :
    (parseVerdict s = true ↔
      ("approved".data <:+: (pyLower s).data ∨
        (¬ "needs_improvement".data <:+: (pyLower s).data ∧
          ¬ "rejected".data <:+: (pyLower s).data))) ∧
    ((¬ "approved".data <:+: (pyLower s).data ∧
      ¬ "needs_improvement".data <:+: (pyLower s).data ∧
      ¬ "rejected".data <:+: (pyLower s).data) → parseVerdict s = true) ∧
    (∀ st : AgentState, st.self_check_passed = true →
      shouldContinueAfterSelfCheck st = ("continue", st)) := by
  have ha := pyIn_iff "approved" (pyLower s)
  have hn := pyIn_iff "needs_improvement" (pyLower s)
  have hr := pyIn_iff "rejected" (pyLower s)
  have hmain : parseVerdict s = true ↔
      ("approved".data <:+: (pyLower s).data ∨
        (¬ "needs_improvement".data <:+: (pyLower s).data ∧
          ¬ "rejected".data <:+: (pyLower s).data)) := by
    unfold parseVerdict
    by_cases h1 : pyIn "approved" (pyLower s) <;>
      by_cases h2 : pyIn "needs_improvement" (pyLower s) <;>
        by_cases h3 : pyIn "rejected" (pyLower s) <;>
          simp [h1, h2, h3, ← ha, ← hn, ← hr]
  refine ⟨hmain, fun h => hmain.mpr (Or.inr ⟨h.2.1, h.2.2⟩), fun st h => ?_⟩
  unfold shouldContinueAfterSelfCheck
  rw [if_pos h]

/-- Witness for C4 at the unparseable verdict text `"Não sei avaliar."` and
a state whose gate passed. -/
theorem C4_gate_parse_policy_witness :
    parseVerdict "Não sei avaliar." = true ∧
    shouldContinueAfterSelfCheck
        { initialState "q" with self_check_passed := true } =
      ("continue", { initialState "q" with self_check_passed := true }) :=
  ⟨(C4_gate_parse_policy "Não sei avaliar.").2.1 (by decide),
    (C4_gate_parse_policy "x").2.2 _ rfl⟩

/-- C6: the citation ids returned by `process_query` are exactly the
ordinals `1..n` (strictly increasing, no gaps) where `n` is the reported
number of retrieved documents — for every behaviour of the ports and hence
for every retrieved count `n`, in particular `n ∈ [0,5]` under the `k=5`
fan-out. -/
theorem C6_citation_ordinals (P : Ports) (q : String) :
    (process_query P q).citations.map Citation.id =
      List.range' 1 (process_query P q).retrieved_docs_count := by
  cases hr : runGraph P (initialState q) with
  | error e =>
      rw [process_query_error P q e hr]
      simp
  | ok v =>
      obtain ⟨fin, n⟩ := v
      rw [process_query_ok P q fin n hr]
      unfold runGraph at hr
      rw [except_bind_ok] at hr
      obtain ⟨st1, hsup, hloop⟩ := hr
      have hinv1 : citInv st1 := by
        rcases supervisor_agent_ok P _ _ hsup with ⟨t, -, ⟨-, rfl⟩ | ⟨-, rfl⟩⟩ <;> rfl
      exact citInv_loop P _ _ _ _ hinv1 hloop

/-- The 200-character document content used to refute the excerpt bound. -/
def doc200 : RetrievedDoc :=
  { content := String.mk (List.replicate 200 'a'), metadata := [], score := 0 }

/-- C7 counterexample: on a 200-character content, the Answer-Composer's
excerpt has 203 characters, contradicting the claimed `≤ 200` bound. -/
theorem C7_counterexample :
    Except.map (fun s => s.citations.map (fun c => c.content.length))
        (answerer_agent rejPorts { initialState "q" with retrieved_docs := [doc200] }) =
      .ok [203] ∧
    ¬ (203 ≤ 200) :=
  ⟨rfl, by decide⟩

/-- The length of a Python slice `s[:n]`. -/
theorem pyTake_length (s : String) (n : Nat) : (pyTake s n).length = min n s.length := by
  show (s.data.take n).length = min n s.data.length
  exact List.length_take ..

/-- C7 (amended): every excerpt is the first `min 200 |content|` characters
of the content followed by the three-character ellipsis `"..."`, hence has
at most 203 characters (not 200). -/
theorem C7_excerpt_bounds (i : Nat) (doc : RetrievedDoc) :
    (mkCitation i doc).content = pyTake doc.content 200 ++ "..." ∧
    (mkCitation i doc).content.length = min 200 doc.content.length + 3 ∧
    (mkCitation i doc).content.length ≤ 203 := by
  have h2 : (mkCitation i doc).content.length = min 200 doc.content.length + 3 := by
    show (pyTake doc.content 200 ++ "...").length = min 200 doc.content.length + 3
    rw [String.length_append, pyTake_length]
    rfl
  exact ⟨rfl, h2, by omega⟩

/-- C8: the Policy-Annotator always succeeds into a state whose
`final_response` is the generated annotation followed by the fixed
`SAFETY_DISCLAIMER`, for every input state — including one whose draft is
the empty string — so its output always ends with the disclaimer. -/
theorem C8_disclaimer_appended (P : Ports) (st : AgentState) (t : String)
    (h : P.safetyLLM st.answer = .ok t) :
    safety_agent P st = .ok { st with safety_check_passed := true
                                    , final_response := t ++ "\n\n" ++ SAFETY_DISCLAIMER } ∧
    SAFETY_DISCLAIMER.data <:+ (t ++ "\n\n" ++ SAFETY_DISCLAIMER).data := by
  constructor
  · unfold safety_agent
    rw [h, except_ok_bind]
    rfl
  · simp only [String.data_append]
    exact List.suffix_append _ _

/-- Witness for C8 on the empty input draft (`initialState` has
`answer = ""`). -/
theorem C8_disclaimer_appended_witness :
    safety_agent rejPorts (initialState "q") =
      .ok { initialState "q" with safety_check_passed := true
                                , final_response :=
                                    ("SAFE:" ++ "") ++ "\n\n" ++ SAFETY_DISCLAIMER } ∧
    SAFETY_DISCLAIMER.data <:+ (("SAFE:" ++ "") ++ "\n\n" ++ SAFETY_DISCLAIMER).data :=
  C8_disclaimer_appended rejPorts (initialState "q") ("SAFE:" ++ "") rfl

/-- C9: `process_query` never lets an exception escape: whenever the graph
run fails it returns the fixed apology envelope (`success = false`, empty
citations), and whenever the run completes it returns `success = true`. -/
theorem C9_no_raw_exceptions (P : Ports) (q : String) :
    ((runGraph P (initialState q)).isOk = false →
      process_query P q =
        { response := ERROR_RESPONSE
        , response_html := none
        , citations := []
        , retrieved_docs_count := 0
        , success := false }) ∧
    ((runGraph P (initialState q)).isOk = true →
      (process_query P q).success = true) := by
  constructor
  · intro h
    cases hr : runGraph P (initialState q) with
    | ok v => rw [hr] at h; simp [Except.isOk, Except.toBool] at h
    | error e => exact process_query_error P q e hr
  · intro h
    cases hr : runGraph P (initialState q) with
    | ok v => rw [process_query_ok P q v.1 v.2 (by rw [hr])]
    | error e => rw [hr] at h; simp [Except.isOk, Except.toBool] at h

/-- Witness for C9: a run whose supervisor call raises yields the apology
envelope; a completed run yields `success = true`. -/
theorem C9_no_raw_exceptions_witness :
    process_query failPorts "q" =
      { response := ERROR_RESPONSE
      , response_html := none
      , citations := []
      , retrieved_docs_count := 0
      , success := false } ∧
    (process_query emptyPorts "q").success = true :=
  ⟨(C9_no_raw_exceptions failPorts "q").1 rfl,
    (C9_no_raw_exceptions emptyPorts "q").2 rfl⟩

/-- C10: the safety stage never blocks: it fails only when its generation
call raises, and on success it unconditionally sets
`safety_check_passed = true`, changes nothing except that flag and the
response text, and the engine's continue edge carries its output straight
into the finalizer. -/
theorem C10_safety_never_blocks (P : Ports) (st : AgentState) :
    (∀ st', safety_agent P st = .ok st' →
      st'.safety_check_passed = true ∧
      afterGateContinue P st = .ok (finalizer_agent st') ∧
      st'.messages = st.messages ∧
      st'.query = st.query ∧
      st'.retrieved_docs = st.retrieved_docs ∧
      st'.answer = st.answer ∧
      st'.citations = st.citations ∧
      st'.self_check_passed = st.self_check_passed ∧
      st'.iteration_count = st.iteration_count) ∧
    (∀ e, safety_agent P st = .error e → P.safetyLLM st.answer = .error e) := by
  constructor
  · intro st' h
    obtain ⟨t, ht, rfl⟩ := safety_agent_ok P st st' h
    refine ⟨rfl, ?_, rfl, rfl, rfl, rfl, rfl, rfl, rfl⟩
    unfold afterGateContinue
    rw [h, except_ok_bind]
    rfl
  · intro e h
    unfold safety_agent at h
    cases he : P.safetyLLM st.answer with
    | ok t => rw [he, except_ok_bind] at h; simp [pure, Except.pure] at h
    | error e' => cases e'; cases e; rfl

/-- The state the safety stage produces from the fresh state on the
always-rejecting stub ports; used by the C10 witness. -/
def safetyOutState : AgentState :=
  { initialState "q" with safety_check_passed := true
                        , final_response := ("SAFE:" ++ "") ++ "\n\n" ++ SAFETY_DISCLAIMER }

/-- Witness for C10 at concrete ports and state. -/
theorem C10_safety_never_blocks_witness :
    safetyOutState.safety_check_passed = true ∧
    afterGateContinue rejPorts (initialState "q") = .ok (finalizer_agent safetyOutState) ∧
    safetyOutState.messages = (initialState "q").messages ∧
    safetyOutState.query = (initialState "q").query ∧
    safetyOutState.retrieved_docs = (initialState "q").retrieved_docs ∧
    safetyOutState.answer = (initialState "q").answer ∧
    safetyOutState.citations = (initialState "q").citations ∧
    safetyOutState.self_check_passed = (initialState "q").self_check_passed ∧
    safetyOutState.iteration_count = (initialState "q").iteration_count :=
  (C10_safety_never_blocks rejPorts (initialState "q")).1 safetyOutState rfl

/-- Reduction of a failed bind. -/
theorem except_error_bind {α β : Type} (f : α → Except Unit β) :
    ((Except.error () : Except Unit α) >>= f) = Except.error () := rfl

/-- When retrieval returns no documents or raises, the retriever stage
leaves an empty `retrieved_docs` (degrade-not-fail). -/
theorem retriever_docs_empty (P : Ports) (st : AgentState)
    (hret : P.retrieve st.query = .ok [] ∨ P.retrieve st.query = .error ()) :
    (retriever_agent P st).retrieved_docs = [] := by
  unfold retriever_agent
  rcases hret with h | h
  · rw [h, except_ok_bind]
    cases hadv : P.retrieverLLM st.query [] <;> rfl
  · rw [h, except_error_bind]

/-- C1 (amended): for an adversarial Generation Port whose quality verdict
always reads `REJECTED`, the run performs exactly `MAX_RETRIES + 1` gate
evaluations, the retry counter ends at exactly `MAX_RETRIES` (it is only
ever incremented below that bound, so it never exceeds it), and
`process_query` returns `success = true` — but its response is the untouched
`final_response` (the empty string on an in-domain run), not the
last-composed draft. -/
theorem C1_retry_bound_and_termination (P : Ports) (q sv : String)
    (hsup : P.supervisorLLM q = .ok sv)
    (hdom : (pyIn "não está relacionada" (pyLower sv) ||
      pyIn "não posso ajudar" (pyLower sv)) = false)
    (hans : ∀ qq c, ∃ t, P.answererLLM qq c = .ok t)
    (hrej : ∀ qq a k, ∃ t, P.selfCheckLLM qq a k = .ok t ∧
      pyIn "approved" (pyLower t) = false ∧ pyIn "rejected" (pyLower t) = true) :
    ∃ fin, runGraph P (initialState q) = .ok (fin, MAX_RETRIES + 1) ∧
      fin.iteration_count = MAX_RETRIES ∧
      fin.final_response = "" ∧
      (process_query P q).success = true ∧
      (process_query P q).response = "" := by
  have hsc : ∀ qq a k, ∃ t, P.selfCheckLLM qq a k = .ok t ∧ parseVerdict t = false := by
    intro qq a k
    obtain ⟨t, h1, h2, h3⟩ := hrej qq a k
    exact ⟨t, h1, by simp [parseVerdict, h2, h3]⟩
  have hst1 : supervisor_agent P (initialState q) =
      .ok { initialState q with messages := [sv] } :=
    supervisor_in_domain P (initialState q) sv hsup hdom
  obtain ⟨fin, hloop, hic, hfr, -⟩ :=
    reject_loop P hans hsc (MAX_RETRIES + 1) { initialState q with messages := [sv] }
      (by omega) rfl
  have hrg : runGraph P (initialState q) = .ok (fin, MAX_RETRIES + 1) := by
    unfold runGraph
    rw [hst1, except_ok_bind]
    exact hloop
  have hpq := process_query_ok P q fin (MAX_RETRIES + 1) hrg
  refine ⟨fin, hrg, hic, hfr, ?_, ?_⟩
  · rw [hpq]
  · rw [hpq]
    exact hfr

/-- Witness for C1 on the always-`REJECTED` stub ports. -/
theorem C1_retry_bound_and_termination_witness :
    ∃ fin, runGraph rejPorts (initialState "q") = .ok (fin, MAX_RETRIES + 1) ∧
      fin.iteration_count = MAX_RETRIES ∧
      fin.final_response = "" ∧
      (process_query rejPorts "q").success = true ∧
      (process_query rejPorts "q").response = "" :=
  C1_retry_bound_and_termination rejPorts "q" "A consulta é sobre clima, vou prosseguir."
    rfl (by decide) (fun _ _ => ⟨"DRAFT", rfl⟩)
    (fun _ _ _ => ⟨"REJECTED", rfl, by decide, by decide⟩)

/-- C1 counterexample: on the always-`REJECTED` run the last-composed draft
is `"DRAFT"`, yet `process_query` responds with the empty string — not the
draft, as the claim states. -/
theorem C1_counterexample :
    (process_query rejPorts "q").response = "" ∧
    Except.map (fun p => p.1.answer) (runGraph rejPorts (initialState "q")) = .ok "DRAFT" ∧
    (process_query rejPorts "q").response ≠ "DRAFT" :=
  ⟨rfl, rfl, by decide⟩

/-- C3 (amended): a run that exhausts its retries ends immediately at the
gate: `final_response` keeps the value it had (the empty string of the
initial state, on an in-domain run), and `process_query` returns that empty
response with `success = true` — the draft is never copied into
`final_response`. -/
theorem C3_reject_exhaustion_blank (P : Ports) (q sv : String)
    (hsup : P.supervisorLLM q = .ok sv)
    (hdom : (pyIn "não está relacionada" (pyLower sv) ||
      pyIn "não posso ajudar" (pyLower sv)) = false)
    (hans : ∀ qq c, ∃ t, P.answererLLM qq c = .ok t)
    (hsc : ∀ qq a k, ∃ t, P.selfCheckLLM qq a k = .ok t ∧ parseVerdict t = false) :
    ∃ fin n, runGraph P (initialState q) = .ok (fin, n) ∧
      fin.final_response = (initialState q).final_response ∧
      (initialState q).final_response = "" ∧
      (process_query P q).response = "" ∧
      (process_query P q).success = true := by
  have hst1 : supervisor_agent P (initialState q) =
      .ok { initialState q with messages := [sv] } :=
    supervisor_in_domain P (initialState q) sv hsup hdom
  obtain ⟨fin, hloop, -, hfr, -⟩ :=
    reject_loop P hans hsc (MAX_RETRIES + 1) { initialState q with messages := [sv] }
      (by omega) rfl
  have hrg : runGraph P (initialState q) = .ok (fin, MAX_RETRIES + 1) := by
    unfold runGraph
    rw [hst1, except_ok_bind]
    exact hloop
  have hpq := process_query_ok P q fin (MAX_RETRIES + 1) hrg
  refine ⟨fin, MAX_RETRIES + 1, hrg, hfr, rfl, ?_, ?_⟩
  · rw [hpq]
    exact hfr
  · rw [hpq]

/-- Witness for C3 on the always-`REJECTED` stub ports. -/
theorem C3_reject_exhaustion_blank_witness :
    ∃ fin n, runGraph rejPorts (initialState "consulta") = .ok (fin, n) ∧
      fin.final_response = (initialState "consulta").final_response ∧
      (initialState "consulta").final_response = "" ∧
      (process_query rejPorts "consulta").response = "" ∧
      (process_query rejPorts "consulta").success = true :=
  C3_reject_exhaustion_blank rejPorts "consulta" "A consulta é sobre clima, vou prosseguir."
    rfl (by decide) (fun _ _ => ⟨"DRAFT", rfl⟩)
    (fun _ _ _ => ⟨"REJECTED", rfl, by decide⟩)

/-- C3 counterexample: on the retry-exhausted run the final state has
`final_response = ""` while the draft is the non-empty `"DRAFT"`, and the
returned response is blank — `final_response` was not set to the draft. -/
theorem C3_counterexample :
    Except.map (fun p => (p.1.final_response, p.1.answer))
        (runGraph rejPorts (initialState "consulta")) = .ok ("", "DRAFT") ∧
    (process_query rejPorts "consulta").response = "" ∧
    ("" : String) ≠ "DRAFT" :=
  ⟨rfl, rfl, by decide⟩

/-- The refusal judgment produced by the out-of-domain stub supervisor. -/
def OOD_REFUSAL : String :=
  "Desculpe, sua consulta não está relacionada a questões climáticas."

/-- C2 (the code at the failing input): the supervisor does classify the
query out-of-domain and stores the refusal in `final_response`, but the
graph's unconditional `supervisor → retriever` edge runs every downstream
stage anyway: the run returns one retrieved document, a non-empty citation
list, and a safety-annotated answer instead of the refusal text. -/
theorem C2_router_no_bypass :
    pyIn "não está relacionada" (pyLower OOD_REFUSAL) = true ∧
    Except.map (fun s => s.final_response)
        (supervisor_agent oodPorts (initialState "q")) = .ok OOD_REFUSAL ∧
    (process_query oodPorts "q").retrieved_docs_count = 1 ∧
    (process_query oodPorts "q").citations ≠ [] ∧
    (process_query oodPorts "q").response ≠ OOD_REFUSAL ∧
    (process_query oodPorts "q").success = true :=
  ⟨by decide, rfl, rfl, by decide, by decide, rfl⟩

/-- C5 (amended): when retrieval yields no documents (or raises), the
Answer-Composer short-circuits — the draft becomes the fixed
insufficient-information message with no citations — and `process_query`
returns `citations = []` and `retrievedDocsCount = 0`; but its response is
the Policy-Annotator's output on that draft (the generated annotation plus
the fixed disclaimer), not the fixed message verbatim. -/
theorem C5_empty_retrieval_short_circuit (P : Ports) (q sv c f : String)
    (hsup : P.supervisorLLM q = .ok sv)
    (hdom : (pyIn "não está relacionada" (pyLower sv) ||
      pyIn "não posso ajudar" (pyLower sv)) = false)
    (hret : P.retrieve q = .ok [] ∨ P.retrieve q = .error ())
    (hsc : P.selfCheckLLM q INSUFFICIENT_INFO_MSG 0 = .ok c)
    (happ : parseVerdict c = true)
    (hsf : P.safetyLLM INSUFFICIENT_INFO_MSG = .ok f) :
    ∃ fin, runGraph P (initialState q) = .ok (fin, 1) ∧
      fin.answer = INSUFFICIENT_INFO_MSG ∧
      fin.citations = [] ∧
      process_query P q =
        { response := f ++ "\n\n" ++ SAFETY_DISCLAIMER
        , response_html := some (P.markdownToHtml (f ++ "\n\n" ++ SAFETY_DISCLAIMER))
        , citations := []
        , retrieved_docs_count := 0
        , success := true } := by
  have hst1 : supervisor_agent P (initialState q) =
      .ok { initialState q with messages := [sv] } :=
    supervisor_in_domain P (initialState q) sv hsup hdom
  set st1 : AgentState := { initialState q with messages := [sv] } with hst1def
  set st2 : AgentState := retriever_agent P st1 with hst2def
  have hdocs : st2.retrieved_docs = [] := retriever_docs_empty P st1 hret
  have hfr2 := retriever_agent_frame P st1
  set st3 : AgentState := { st2 with answer := INSUFFICIENT_INFO_MSG, citations := [] }
    with hst3def
  have hA : answerer_agent P st2 = .ok st3 := by
    unfold answerer_agent
    rw [if_pos (by simp [hdocs])]
    rfl
  have hq3 : st3.query = q := hfr2.1
  set st4 : AgentState := { st3 with self_check_passed := parseVerdict c
                                   , messages := st3.messages ++ [c] } with hst4def
  have hS : self_check_agent P st3 = .ok st4 := by
    unfold self_check_agent
    rw [show P.selfCheckLLM st3.query st3.answer st3.citations.length = .ok c from by
      rw [hq3]; exact hsc]
    rfl
  have hg : shouldContinueAfterSelfCheck st4 = ("continue", st4) := by
    unfold shouldContinueAfterSelfCheck
    rw [if_pos (show st4.self_check_passed = true from happ)]
  set st5 : AgentState := { st4 with safety_check_passed := true
                                   , final_response := f ++ "\n\n" ++ SAFETY_DISCLAIMER }
    with hst5def
  have hSafe : safety_agent P st4 = .ok st5 := by
    unfold safety_agent
    rw [show P.safetyLLM st4.answer = .ok f from hsf]
    rfl
  have hFin : finalizer_agent st5 = st5 := by
    unfold finalizer_agent
    rw [if_pos (show st5.citations.isEmpty = true from rfl)]
  have hAG : afterGateContinue P st4 = .ok st5 := by
    unfold afterGateContinue
    rw [hSafe, except_ok_bind, hFin]
    rfl
  have hloop : runFromRetriever P (MAX_RETRIES + 1) st1 = .ok (st5, 1) := by
    rw [show MAX_RETRIES + 1 = 3 + 1 from rfl, runFromRetriever_succ]
    rw [← hst2def]
    simp [hA, hS, hg, hAG, except_ok_bind, pure, Except.pure]
  have hrg : runGraph P (initialState q) = .ok (st5, 1) := by
    unfold runGraph
    rw [hst1, except_ok_bind]
    exact hloop
  have hpq := process_query_ok P q st5 1 hrg
  refine ⟨st5, hrg, rfl, rfl, ?_⟩
  rw [hpq]
  simp [QueryResult.mk.injEq, hdocs]

/-- Witness for C5 on the empty-retrieval stub ports. -/
theorem C5_empty_retrieval_short_circuit_witness :
    ∃ fin, runGraph emptyPorts (initialState "q") = .ok (fin, 1) ∧
      fin.answer = INSUFFICIENT_INFO_MSG ∧
      fin.citations = [] ∧
      process_query emptyPorts "q" =
        { response := ("SAFE:" ++ INSUFFICIENT_INFO_MSG) ++ "\n\n" ++ SAFETY_DISCLAIMER
        , response_html := some (("SAFE:" ++ INSUFFICIENT_INFO_MSG) ++ "\n\n" ++ SAFETY_DISCLAIMER)
        , citations := []
        , retrieved_docs_count := 0
        , success := true } :=
  C5_empty_retrieval_short_circuit emptyPorts "q"
    "A consulta é sobre clima, vou prosseguir." "APPROVED"
    ("SAFE:" ++ INSUFFICIENT_INFO_MSG)
    rfl (by decide) (Or.inl rfl) rfl (by decide) rfl

/-- C5 counterexample: with empty retrieval the returned response is the
safety-annotated text plus disclaimer — not the fixed
insufficient-information message the claim promises (the citations are
indeed empty). -/
theorem C5_counterexample :
    (process_query emptyPorts "q").citations = [] ∧
    (process_query emptyPorts "q").response =
      ("SAFE:" ++ INSUFFICIENT_INFO_MSG) ++ "\n\n" ++ SAFETY_DISCLAIMER ∧
    (process_query emptyPorts "q").response ≠ INSUFFICIENT_INFO_MSG :=
  ⟨rfl, rfl, by decide⟩

end ClimateAssistant
